import Mathlib

/-!
Verification development for a repository containing two small service
adapters: a weather/aviation data adapter (`weather.py`) and a
document-to-markdown adapter (`server.py`).

The Python code is shallowly embedded: every handler body is a pure Lean
function; Python exceptions are modelled by `Except PyErr`; the outbound
HTTP layer is an oracle (`WeatherEnv` / `DocEnv`) mapping each request URL
to the parsed response or to a failure, mirroring the fact that the three
request helpers collapse every transport failure to `None` via
`try/except`.  Parsed JSON payloads are modelled by the `Json` inductive
type; numeric literals are modelled as integers (floating point is outside
the embedding, and the only float the code manipulates is rendered
straight into strings, which the environment supplies).
-/

/-- A Python exception, reduced to its class name and its message
(`str(e)` is the `msg` field). -/
structure PyErr where
  kind : String
  msg : String
deriving DecidableEq, Repr

/-- Parsed JSON data as returned by `response.json()`.  Numbers are
modelled as integers; floating point is outside the embedding and never
influences any claim. -/
inductive Json where
  | null : Json
  | bool : Bool → Json
  | num : Int → Json
  | str : String → Json
  | arr : List Json → Json
  | obj : List (String × Json) → Json

namespace Json

mutual

/-- Structural equality of JSON values, modelling the Python `==` used by
list membership tests. -/
def beq : Json → Json → Bool
  | .null, .null => true
  | .bool a, .bool b => a == b
  | .num a, .num b => a == b
  | .str a, .str b => a == b
  | .arr a, .arr b => beqList a b
  | .obj a, .obj b => beqObj a b
  | _, _ => false

/-- Elementwise equality of JSON lists. -/
def beqList : List Json → List Json → Bool
  | [], [] => true
  | x :: xs, y :: ys => beq x y && beqList xs ys
  | _, _ => false

/-- Entrywise equality of JSON dicts. -/
def beqObj : List (String × Json) → List (String × Json) → Bool
  | [], [] => true
  | kv :: xs, kw :: ys => kv.1 == kw.1 && beq kv.2 kw.2 && beqObj xs ys
  | _, _ => false

end

instance : BEq Json := ⟨beq⟩

/-- Python truthiness of a JSON value: `None` and `False` are falsy,
numbers are truthy when nonzero, strings/lists/dicts when nonempty. -/
def truthy : Json → Bool
  | .null => false
  | .bool b => b
  | .num n => n != 0
  | .str s => !s.data.isEmpty
  | .arr l => !l.isEmpty
  | .obj l => !l.isEmpty

/-- Python subscripting `value[key]` with a string key: a dict lookup that
raises `KeyError` when the key is missing, and `TypeError` on every
non-dict value. -/
def index : Json → String → Except PyErr Json
  | .obj kvs, k =>
    match kvs.lookup k with
    | some v => .ok v
    | none => .error ⟨"KeyError", "\x27" ++ k ++ "\x27"⟩
  | .arr _, _ => .error ⟨"TypeError", "list indices must be integers or slices, not str"⟩
  | .str _, _ => .error ⟨"TypeError", "string indices must be integers"⟩
  | .num _, _ => .error ⟨"TypeError", "\x27int\x27 object is not subscriptable"⟩
  | .bool _, _ => .error ⟨"TypeError", "\x27bool\x27 object is not subscriptable"⟩
  | .null, _ => .error ⟨"TypeError", "\x27NoneType\x27 object is not subscriptable"⟩

/-- Python subscripting `value[0]`, as used on the geocoding response. -/
def index0 : Json → Except PyErr Json
  | .arr [] => .error ⟨"IndexError", "list index out of range"⟩
  | .arr (x :: _) => .ok x
  | .str s =>
    match s.data with
    | [] => .error ⟨"IndexError", "string index out of range"⟩
    | c :: _ => .ok (.str ⟨[c]⟩)
  | .obj _ => .error ⟨"KeyError", "0"⟩
  | .num _ => .error ⟨"TypeError", "\x27int\x27 object is not subscriptable"⟩
  | .bool _ => .error ⟨"TypeError", "\x27bool\x27 object is not subscriptable"⟩
  | .null => .error ⟨"TypeError", "\x27NoneType\x27 object is not subscriptable"⟩

/-- Substring test used by the Python `in` operator on strings. -/
def strContainsSub (hay needle : String) : Bool :=
  (List.range (hay.data.length + 1)).any
    (fun i => needle.data.isPrefixOf (hay.data.drop i))

/-- Python membership test `key in value` with a string key: key lookup on
dicts, element membership on lists, substring test on strings, and a
`TypeError` on non-iterable values. -/
def hasMember : Json → String → Except PyErr Bool
  | .obj kvs, k => .ok (kvs.lookup k).isSome
  | .arr l, k => .ok (l.contains (.str k))
  | .str s, k => .ok (strContainsSub s k)
  | .num _, _ => .error ⟨"TypeError", "argument of type \x27int\x27 is not iterable"⟩
  | .bool _, _ => .error ⟨"TypeError", "argument of type \x27bool\x27 is not iterable"⟩
  | .null, _ => .error ⟨"TypeError", "argument of type \x27NoneType\x27 is not iterable"⟩

/-- Python `dict.get(key, default)`: total on dicts, `AttributeError` on
every other value. -/
def dictGet : Json → String → Json → Except PyErr Json
  | .obj kvs, k, dflt => .ok ((kvs.lookup k).getD dflt)
  | .arr _, _, _ => .error ⟨"AttributeError", "\x27list\x27 object has no attribute \x27get\x27"⟩
  | .str _, _, _ => .error ⟨"AttributeError", "\x27str\x27 object has no attribute \x27get\x27"⟩
  | .num _, _, _ => .error ⟨"AttributeError", "\x27int\x27 object has no attribute \x27get\x27"⟩
  | .bool _, _, _ => .error ⟨"AttributeError", "\x27bool\x27 object has no attribute \x27get\x27"⟩
  | .null, _, _ => .error ⟨"AttributeError", "\x27NoneType\x27 object has no attribute \x27get\x27"⟩

/-- Python `len(value)`. -/
def pyLen : Json → Except PyErr Nat
  | .arr l => .ok l.length
  | .obj kvs => .ok kvs.length
  | .str s => .ok s.data.length
  | .num _ => .error ⟨"TypeError", "object of type \x27int\x27 has no len()"⟩
  | .bool _ => .error ⟨"TypeError", "object of type \x27bool\x27 has no len()"⟩
  | .null => .error ⟨"TypeError", "object of type \x27NoneType\x27 has no len()"⟩

/-- Python slicing `value[:5]`, as applied to the forecast periods. -/
def slice5 : Json → Except PyErr Json
  | .arr l => .ok (.arr (l.take 5))
  | .str s => .ok (.str ⟨s.data.take 5⟩)
  | .obj _ => .error ⟨"TypeError", "unhashable type: \x27slice\x27"⟩
  | .num _ => .error ⟨"TypeError", "\x27int\x27 object is not subscriptable"⟩
  | .bool _ => .error ⟨"TypeError", "\x27bool\x27 object is not subscriptable"⟩
  | .null => .error ⟨"TypeError", "\x27NoneType\x27 object is not subscriptable"⟩

/-- Python iteration `for x in value`: lists yield elements, strings yield
one-character strings, dicts yield their keys; other values raise. -/
def toIter : Json → Except PyErr (List Json)
  | .arr l => .ok l
  | .str s => .ok (s.data.map fun c => .str ⟨[c]⟩)
  | .obj kvs => .ok (kvs.map fun kv => .str kv.1)
  | .num _ => .error ⟨"TypeError", "\x27int\x27 object is not iterable"⟩
  | .bool _ => .error ⟨"TypeError", "\x27bool\x27 object is not iterable"⟩
  | .null => .error ⟨"TypeError", "\x27NoneType\x27 object is not iterable"⟩

mutual

/-- Python `repr` of a JSON value (string escaping subtleties aside),
used by `str` on non-string values inside f-strings. -/
def pyRepr : Json → String
  | .null => "None"
  | .bool b => if b then "True" else "False"
  | .num n => toString n
  | .str s => "\x27" ++ s ++ "\x27"
  | .arr xs => "[" ++ pyReprList xs ++ "]"
  | .obj kvs => "\x7b" ++ pyReprObj kvs ++ "\x7d"

/-- Comma-separated reprs of the elements of a list. -/
def pyReprList : List Json → String
  | [] => ""
  | [x] => pyRepr x
  | x :: xs => pyRepr x ++ ", " ++ pyReprList xs

/-- Comma-separated reprs of the entries of a dict. -/
def pyReprObj : List (String × Json) → String
  | [] => ""
  | [kv] => "\x27" ++ kv.1 ++ "\x27: " ++ pyRepr kv.2
  | kv :: kvs => "\x27" ++ kv.1 ++ "\x27: " ++ pyRepr kv.2 ++ ", " ++ pyReprObj kvs

end

/-- Python `str` of a JSON value, as interpolated by f-strings: strings
render as themselves, every other value as its repr. -/
def pyStr : Json → String
  | .str s => s
  | j => pyRepr j

end Json

/-- The whitespace characters stripped by Python `str.strip()` (the ASCII
range; exotic Unicode space classes are outside the embedding). -/
def pyWhitespace (c : Char) : Bool :=
  c = ' ' || c = '\t' || c = '\n' || c = '\x0d' || c = '\x0b' || c = '\x0c'

/-- Python `str.strip()`: drop leading and trailing whitespace. -/
def pyStrip (s : String) : String :=
  ⟨((s.data.dropWhile pyWhitespace).reverse.dropWhile pyWhitespace).reverse⟩

/-- Python `str.upper()` on one character (ASCII range; non-ASCII letters
are modelled unchanged). -/
def pyCharUpper (c : Char) : Char :=
  if c.isLower then Char.ofNat (c.toNat - 32) else c

/-- Python `str.upper()`. -/
def pyUpper (s : String) : String :=
  ⟨s.data.map pyCharUpper⟩

/-- Python `str.isalpha()` (ASCII range): nonempty and all letters. -/
def pyIsAlpha (s : String) : Bool :=
  !s.data.isEmpty && s.data.all Char.isAlpha

/-- Python `sep.join(parts)`. -/
def pyJoin (sep : String) : List String → String
  | [] => ""
  | [x] => x
  | x :: xs => x ++ sep ++ pyJoin sep xs

/-- Python `s.split(sep)[0]` for a one-character separator: the prefix of
the string up to the first occurrence of the separator. -/
def pySplitFirst (s : String) (sep : Char) : String :=
  ⟨s.data.takeWhile (fun c => c ≠ sep)⟩

/-- Hex digit (uppercase) used by percent-encoding. -/
def hexDigit (n : Nat) : Char :=
  if n < 10 then Char.ofNat (48 + n) else Char.ofNat (55 + n)

/-- UTF-8 bytes of one character, for percent-encoding. -/
def charUtf8 (c : Char) : List Nat :=
  let n := c.toNat
  if n < 128 then [n]
  else if n < 2048 then [192 + n / 64, 128 + n % 64]
  else if n < 65536 then [224 + n / 4096, 128 + n / 64 % 64, 128 + n % 64]
  else [240 + n / 262144, 128 + n / 4096 % 64, 128 + n / 64 % 64, 128 + n % 64]

/-- Characters that `urllib.parse.quote` leaves unescaped with the default
`safe` argument: ASCII letters, digits, `_.-~` and `/`. -/
def quoteSafe (c : Char) : Bool :=
  c.isAlphanum || c = '_' || c = '.' || c = '-' || c = '~' || c = '/'

/-- Python `urllib.parse.quote(s)`: percent-encode every unsafe character
as the uppercase hex of its UTF-8 bytes. -/
def pyQuote (s : String) : String :=
  ⟨(s.data.map fun c =>
      if quoteSafe c then [c]
      else ((charUtf8 c).map fun b => ['%', hexDigit (b / 16), hexDigit (b % 16)]).flatten).flatten⟩

/-- Python falsiness of an optional raw-text response (`not metar_data`):
true when the fetch failed or the text is empty. -/
def optStrFalsy : Option String → Bool
  | none => true
  | some t => t.data.isEmpty

/- ## Weather adapter (`src/mcp-weather/weather.py`) -/

def NWS_API_BASE : String := "https://api.weather.gov"

def AVIATION_WEATHER_API : String := "https://aviationweather.gov/api/data"

def GEOCODING_API : String := "https://nominatim.openstreetmap.org"

/-- The outbound world of the weather adapter.  Each `...Get` field is the
combined effect of `client.get`, `raise_for_status` and response parsing
at one URL: `.error ()` is any exception (network error, timeout, non-2xx
status, parse failure).  `pyfloat` is the Python `float(...)` builtin
composed with the `str` rendering of the result, treated as an external
capability since floating point is outside the embedding; it may raise
`TypeError` or `ValueError`. -/
structure WeatherEnv where
  nwsGet : String → Except Unit Json
  aviationGet : String → Except Unit String
  geoGet : String → Except Unit Json
  pyfloat : Json → Except PyErr String

/-- `make_nws_request`: try the GET and JSON parse, return `None` on any
exception. -/
def make_nws_request (env : WeatherEnv) (url : String) : Option Json :=
  match env.nwsGet url with
  | .ok j => some j
  | .error _ => none

/-- `make_aviation_request`: try the GET, return the raw response text, or
`None` on any exception. -/
def make_aviation_request (env : WeatherEnv) (url : String) : Option String :=
  match env.aviationGet url with
  | .ok t => some t
  | .error _ => none

/-- `make_geocoding_request`: try the GET and JSON parse, return `None` on
any exception. -/
def make_geocoding_request (env : WeatherEnv) (url : String) : Option Json :=
  match env.geoGet url with
  | .ok j => some j
  | .error _ => none

/-- The alerts request URL for a state code. -/
def alertsUrl (state : String) : String :=
  NWS_API_BASE ++ "/alerts/active/area/" ++ state

/-- The points request URL for a pair of coordinates (in their decimal
rendering). -/
def pointsUrl (latitude longitude : String) : String :=
  NWS_API_BASE ++ "/points/" ++ latitude ++ "," ++ longitude

/-- The geocoding search URL for an already-encoded location. -/
def geoSearchUrl (encoded_location : String) : String :=
  GEOCODING_API ++ "/search?q=" ++ encoded_location ++ "&format=json&limit=1"

/-- The fixed failure message of `get_alerts`. -/
def unableAlertsMsg : String := "Unable to fetch alerts or no alerts found."

/-- The fixed empty-alerts message of `get_alerts`. -/
def noActiveAlertsMsg : String := "No active alerts for this state."

/-- The fixed failure message of `get_forecast` for the points call. -/
def unablePointsMsg : String := "Unable to fetch forecast data for this location."

/-- The fixed failure message of `get_forecast` for the forecast call. -/
def unableForecastMsg : String := "Unable to fetch detailed forecast."

/-- The fixed blank-input message of `geocode_location`. -/
def invalidLocationMsg : String := "Please provide a valid location name."

/-- The no-match message of `geocode_location`, embedding the original
(untrimmed) location. -/
def unableFindMsg (location : String) : String :=
  "Unable to find coordinates for \x27" ++ location ++
    "\x27. Please try a more specific location name."

/-- `format_alert`: index the feature at `"properties"` (a `KeyError` when
absent) and render the five fields with their placeholder defaults. -/
def format_alert (feature : Json) : Except PyErr String := do
  let props ← feature.index "properties"
  let event ← props.dictGet "event" (.str "Unknown")
  let area ← props.dictGet "areaDesc" (.str "Unknown")
  let severity ← props.dictGet "severity" (.str "Unknown")
  let description ← props.dictGet "description" (.str "No description available")
  let instructions ← props.dictGet "instruction" (.str "No specific instructions provided")
  pure ("\n        Event: " ++ event.pyStr ++
    "\n        Area: " ++ area.pyStr ++
    "\n        Severity: " ++ severity.pyStr ++
    "\n        Description: " ++ description.pyStr ++
    "\n        Instructions: " ++ instructions.pyStr ++
    "\n        ")

/-- `get_alerts` handler. -/
def get_alerts (env : WeatherEnv) (state : String) : Except PyErr String :=
  match make_nws_request env (alertsUrl state) with
  | none => .ok unableAlertsMsg
  | some data =>
    if ¬ data.truthy then .ok unableAlertsMsg
    else do
      let hasFeatures ← data.hasMember "features"
      if ¬ hasFeatures then
        pure unableAlertsMsg
      else do
        let features ← data.index "features"
        if ¬ features.truthy then pure noActiveAlertsMsg
        else do
          let feats ← features.toIter
          let alerts ← feats.mapM format_alert
          pure (pyJoin "\n---\n" alerts)

/-- One iteration of the `get_forecast` period loop: index the six fields
(`KeyError` when one is absent) and render the block. -/
def format_period (period : Json) : Except PyErr String := do
  let name ← period.index "name"
  let temperature ← period.index "temperature"
  let temperatureUnit ← period.index "temperatureUnit"
  let windSpeed ← period.index "windSpeed"
  let windDirection ← period.index "windDirection"
  let detailedForecast ← period.index "detailedForecast"
  pure ("\n            " ++ name.pyStr ++
    ":\n            Temperature: " ++ temperature.pyStr ++ "Â°" ++ temperatureUnit.pyStr ++
    "\n            Wind: " ++ windSpeed.pyStr ++ " " ++ windDirection.pyStr ++
    "\n            Forecast: " ++ detailedForecast.pyStr ++
    "\n            ")

/-- `get_forecast` handler.  The latitude and longitude arguments are
Python floats that the handler only interpolates into the points URL; the
model takes their decimal rendering.  When the forecast URL taken from the
points response is not a string, the `client.get` call inside the request
helper raises before any request is issued and the helper returns `None`. -/
def get_forecast (env : WeatherEnv) (latitude longitude : String) : Except PyErr String :=
  match make_nws_request env (pointsUrl latitude longitude) with
  | none => .ok unablePointsMsg
  | some points_data =>
    if ¬ points_data.truthy then .ok unablePointsMsg
    else do
      let props ← points_data.index "properties"
      let forecast_url ← props.index "forecast"
      let forecast_data :=
        match forecast_url with
        | .str u => make_nws_request env u
        | _ => none
      match forecast_data with
      | none => pure unableForecastMsg
      | some fd =>
        if ¬ fd.truthy then pure unableForecastMsg
        else do
          let fprops ← fd.index "properties"
          let periods ← fprops.index "periods"
          let sliced ← periods.slice5
          let items ← sliced.toIter
          let forecasts ← items.mapM format_period
          pure (pyJoin "\n---\n" forecasts)

/-- `geocode_location` handler.  The second component of the result is the
list of URLs for which an outbound request was issued. -/
def geocode_location (env : WeatherEnv) (location : String) :
    Except PyErr String × List String :=
  if location.data.isEmpty || (pyStrip location).data.isEmpty then
    (.ok invalidLocationMsg, [])
  else
    let url := geoSearchUrl (pyQuote (pyStrip location))
    let notFound := unableFindMsg location
    match make_geocoding_request env url with
    | none => (.ok notFound, [url])
    | some data =>
      (if ¬ data.truthy then .ok notFound
       else do
        let n ← data.pyLen
        if n = 0 then pure notFound
        else do
          let result ← data.index0
          let latv ← result.index "lat"
          let latitude ← env.pyfloat latv
          let lonv ← result.index "lon"
          let longitude ← env.pyfloat lonv
          let display_name ← result.dictGet "display_name" (.str location)
          pure ("Location: " ++ display_name.pyStr ++
            "\nLatitude: " ++ latitude ++
            "\nLongitude: " ++ longitude ++
            "\nCoordinates: " ++ latitude ++ ", " ++ longitude), [url])

/-- The fixed rejection message for a malformed ICAO code. -/
def invalidIcaoMsg : String :=
  "Invalid ICAO code. Please provide a 4-letter airport code (e.g., KORD, EGLL, KJFK)."

/-- The METAR request URL for a (normalized) ICAO code. -/
def metarUrl (code : String) : String :=
  AVIATION_WEATHER_API ++ "/metar?ids=" ++ code ++ "&format=raw"

/-- The TAF request URL for a (normalized) ICAO code. -/
def tafUrl (code : String) : String :=
  AVIATION_WEATHER_API ++ "/taf?ids=" ++ code ++ "&format=raw"

/-- The combined failure message of `get_aviation_weather`. -/
def unableAviationMsg (code : String) : String :=
  "Unable to fetch aviation weather data for " ++ code ++
    ". Please check the ICAO code and try again."

/-- The entries `get_aviation_weather` appends to `result_parts` for the
METAR fetch result: the header line plus the stripped raw text when it is
present and non-blank, the per-feed no-data line otherwise. -/
def metarParts (code : String) : Option String → List String
  | some t =>
    if ¬ t.data.isEmpty ∧ ¬ (pyStrip t).data.isEmpty then
      ["METAR for " ++ code ++ ":", pyStrip t]
    else ["METAR for " ++ code ++ ": No current METAR data available"]
  | none => ["METAR for " ++ code ++ ": No current METAR data available"]

/-- The entries `get_aviation_weather` appends to `result_parts` for the
TAF fetch result. -/
def tafParts (code : String) : Option String → List String
  | some t =>
    if ¬ t.data.isEmpty ∧ ¬ (pyStrip t).data.isEmpty then
      ["\nTAF for " ++ code ++ ":", pyStrip t]
    else ["\nTAF for " ++ code ++ ": No current TAF data available"]
  | none => ["\nTAF for " ++ code ++ ": No current TAF data available"]

/-- `get_aviation_weather` handler.  The handler body performs no raising
operation, so its result type is a plain string; the second component is
the list of URLs for which an outbound request was issued. -/
def get_aviation_weather (env : WeatherEnv) (icao_code : String) :
    String × List String :=
  let icao_code := pyStrip (pyUpper icao_code)
  if icao_code.data.length ≠ 4 ∨ ¬ pyIsAlpha icao_code then
    (invalidIcaoMsg, [])
  else
    let metar_data := make_aviation_request env (metarUrl icao_code)
    let taf_data := make_aviation_request env (tafUrl icao_code)
    if optStrFalsy metar_data ∧ optStrFalsy taf_data then
      (unableAviationMsg icao_code, [metarUrl icao_code, tafUrl icao_code])
    else
      (pyJoin "\n" (metarParts icao_code metar_data ++ tafParts icao_code taf_data),
       [metarUrl icao_code, tafUrl icao_code])

/-- Python `s.startswith(pre)`, structurally (so that concrete instances
reduce definitionally). -/
def pyStartsWith (s pre : String) : Bool :=
  pre.data.isPrefixOf s.data

/- ## Document adapter (`src/mcp-document-reader/server.py`) -/

/-- What `requests.get` hands back when it does not itself raise:
`statusError` is the `HTTPError` that `raise_for_status` raises for an
error status (`none` for a success status), `content` the body bytes. -/
structure HttpResp where
  statusError : Option PyErr
  content : String

/-- The outbound world of the document adapter.  `httpGet` is
`requests.get` (its own network failures are the `.error` case);
`tempBase` is the path prefix the host chooses for
`NamedTemporaryFile(delete=False, suffix=ext)`, whose name is that prefix
followed by the suffix; `home` and `userHome` feed `os.path.expanduser`;
`convert` is `MarkItDown.convert`, returning the optional `text_content`
of the conversion result or raising. -/
structure DocEnv where
  httpGet : String → Except PyErr HttpResp
  tempBase : String
  home : String
  userHome : String → Option String
  convert : String → Except PyErr (Option String)

/-- Index of the last occurrence of a character, scanning from offset. -/
def rfindAux (c : Char) : List Char → Nat → Option Nat
  | [], _ => none
  | x :: xs, i =>
    match rfindAux c xs (i + 1) with
    | some j => some j
    | none => if x = c then some i else none

/-- Python `s.rfind(c)`: index of the last occurrence, `-1` when absent. -/
def pyRfind (s : String) (c : Char) : Int :=
  match rfindAux c s.data 0 with
  | some i => (i : Int)
  | none => -1

/-- The extension part of `os.path.splitext(p)` (POSIX rules): the suffix
from the last dot when that dot lies after the last slash and the name
between them does not consist solely of dots; empty otherwise. -/
def splitextExt (p : String) : String :=
  let cs := p.data
  let sepIdx := pyRfind p '/'
  let dotIdx := pyRfind p '.'
  if sepIdx < dotIdx then
    let filenameStart := (sepIdx + 1).toNat
    if (List.range' filenameStart (dotIdx.toNat - filenameStart)).any
        (fun i => cs.getD i '.' ≠ '.') then
      ⟨cs.drop dotIdx.toNat⟩
    else ""
  else ""

/-- Python `os.path.expanduser` (POSIX rules): expand a leading `~` or
`~user` against the environment, returning the path unchanged when it does
not start with `~` or the named user is unknown. -/
def expanduser (env : DocEnv) (path : String) : String :=
  if ¬ pyStartsWith path "~" then path
  else
    let cs := path.data
    let i :=
      match (cs.drop 1).findIdx? (fun c => c = '/') with
      | some j => j + 1
      | none => cs.length
    let userhome? :=
      if i = 1 then some env.home
      else env.userHome ⟨(cs.drop 1).take (i - 1)⟩
    match userhome? with
    | none => path
    | some uh =>
      let uh : String := ⟨(uh.data.reverse.dropWhile (fun c => c = '/')).reverse⟩
      let res := uh ++ (⟨cs.drop i⟩ : String)
      if res.data.isEmpty then "/" else res

/-- `get_local_file`: download a remote URI to a temporary file whose
suffix is derived from the query-stripped URI (defaulting to `.tmp`),
letting request exceptions and `raise_for_status` propagate; expand the
user shorthand for a local path. -/
def get_local_file (env : DocEnv) (file_path : String) : Except PyErr String :=
  if pyStartsWith file_path "http://" || pyStartsWith file_path "https://" then do
    let response ← env.httpGet file_path
    match response.statusError with
    | some e => .error e
    | none =>
      let file_without_query_param := pySplitFirst file_path '?'
      let ext := splitextExt file_without_query_param
      let ext := if ¬ ext.data.isEmpty then ext else ".tmp"
      .ok (env.tempBase ++ ext)
  else .ok (expanduser env file_path)

/-- `read_pdf` handler: resolve, convert, fall back to the empty string
when the conversion exposes no text, and render any exception as the
fixed error string (`str(e)` is the `msg` field of the exception). -/
def read_pdf (env : DocEnv) (file_path : String) : String :=
  match (do
    let local_path ← get_local_file env file_path
    let doc ← env.convert local_path
    let content : String :=
      match doc with
      | some text => text
      | none => ""
    pure content : Except PyErr String) with
  | .ok content => content
  | .error e => "Error reading PDF: " ++ e.msg

/-- `read_docx` handler: same body as `read_pdf` except for the label in
the error string. -/
def read_docx (env : DocEnv) (file_path : String) : String :=
  match (do
    let local_path ← get_local_file env file_path
    let doc ← env.convert local_path
    let content : String :=
      match doc with
      | some text => text
      | none => ""
    pure content : Except PyErr String) with
  | .ok content => content
  | .error e => "Error reading DOCX: " ++ e.msg

/- ## Concrete environments and payloads used by witnesses and counterexamples -/

/-- Weather environment in which every outbound request fails. -/
def envNone : WeatherEnv :=
  { nwsGet := fun _ => .error (), aviationGet := fun _ => .error (),
    geoGet := fun _ => .error (), pyfloat := fun _ => .error ⟨"TypeError", "bad argument"⟩ }

/-- Environment in which both aviation feeds answer with an empty body. -/
def envEmptyAviation : WeatherEnv :=
  { envNone with aviationGet := fun _ => .ok "" }

/-- Environment with a METAR result and a failing TAF fetch. -/
def envMetarOnly : WeatherEnv :=
  { envNone with aviationGet := fun u =>
      if u = metarUrl "KORD" then .ok " METAR KORD 121651Z 18010KT " else .error () }

/-- Environment whose alerts endpoint answers with the bare JSON number 5. -/
def envAlertsNum : WeatherEnv :=
  { envNone with nwsGet := fun _ => .ok (.num 5) }

/-- Environment whose points endpoint answers with a truthy JSON object
lacking the properties key. -/
def envPointsNoProps : WeatherEnv :=
  { envNone with nwsGet := fun _ => .ok (.obj [("x", .num 1)]) }

/-- A well-formed alert feature payload. -/
def alertFeature : Json :=
  .obj [("properties", .obj [("event", .str "Flood Warning"), ("severity", .str "Severe")])]

/-- Environment whose alerts endpoint answers with an empty features list. -/
def envAlertsEmpty : WeatherEnv :=
  { envNone with nwsGet := fun _ => .ok (.obj [("features", .arr [])]) }

/-- Environment whose alerts endpoint answers with one alert feature. -/
def envAlertsOne : WeatherEnv :=
  { envNone with nwsGet := fun _ => .ok (.obj [("features", .arr [alertFeature])]) }

/-- A well-formed forecast period payload with a given name. -/
def periodJson (nm : String) : Json :=
  .obj [("name", .str nm), ("temperature", .num 70), ("temperatureUnit", .str "F"),
    ("windSpeed", .str "5 mph"), ("windDirection", .str "N"),
    ("detailedForecast", .str "Sunny")]

/-- A well-formed points payload pointing at a forecast grid URL. -/
def pointsResp : Json :=
  .obj [("properties", .obj [("forecast",
    .str "https://api.weather.gov/gridpoints/X/1,2/forecast")])]

/-- A well-formed forecast payload with seven periods. -/
def forecastResp7 : Json :=
  .obj [("properties", .obj [("periods", .arr
    [periodJson "P1", periodJson "P2", periodJson "P3", periodJson "P4",
     periodJson "P5", periodJson "P6", periodJson "P7"])])]

/-- Environment serving the seven-period forecast behind the points URL. -/
def envForecast7 : WeatherEnv :=
  { envNone with nwsGet := fun u =>
      if u = pointsUrl "39.0" "-104.0" then .ok pointsResp
      else if u = "https://api.weather.gov/gridpoints/X/1,2/forecast" then .ok forecastResp7
      else .error () }

/-- Environment whose geocoding endpoint answers with one match, together
with a float capability that renders the already-decimal strings as
themselves. -/
def envGeoGood : WeatherEnv :=
  { envNone with
    geoGet := fun _ => .ok (.arr [.obj
      [("lat", .str "40.7"), ("lon", .str "-74.0"), ("display_name", .str "New York")]]),
    pyfloat := fun j =>
      match j with
      | .str s => .ok s
      | _ => .error ⟨"TypeError", "float() argument must be a string or a real number"⟩ }

/-- Python endswith, structurally. -/
def pyEndsWith (s suf : String) : Bool :=
  suf.data.isSuffixOf s.data

/-- Document environment in which every external capability succeeds. -/
def denvOk : DocEnv :=
  { httpGet := fun _ => .ok ⟨none, "bytes"⟩, tempBase := "/tmp/tmpw1zq7xv0",
    home := "/home/user", userHome := fun _ => none,
    convert := fun _ => .ok (some "# Title") }

/-- Document environment whose conversion capability raises. -/
def denvConvRaise : DocEnv :=
  { denvOk with convert := fun _ => .error ⟨"FileNotFoundError", "no such file"⟩ }

/-- Document environment whose conversion result has no text content. -/
def denvConvNone : DocEnv :=
  { denvOk with convert := fun _ => .ok none }

/-- Document environment whose HTTP capability raises. -/
def denvHttpRaise : DocEnv :=
  { denvOk with httpGet := fun _ => .error ⟨"ConnectionError", "connection refused"⟩ }

/- ## Response shapes on which the JSON handlers cannot raise -/

/-- A feature on which `format_alert` cannot raise: an object whose
properties key holds an object. -/
def goodFeature (f : Json) : Prop :=
  ∃ fkvs pkvs, f = .obj fkvs ∧ fkvs.lookup "properties" = some (.obj pkvs)

/-- A truthy alerts response shape on which `get_alerts` cannot raise. -/
def goodAlerts (j : Json) : Prop :=
  ∃ kvs feats, j = .obj kvs ∧ kvs.lookup "features" = some (.arr feats) ∧
    ∀ f ∈ feats, goodFeature f

/-- A period on which `format_period` cannot raise. -/
def goodPeriod (p : Json) : Prop :=
  ∃ kvs, p = .obj kvs ∧
    (kvs.lookup "name").isSome = true ∧
    (kvs.lookup "temperature").isSome = true ∧
    (kvs.lookup "temperatureUnit").isSome = true ∧
    (kvs.lookup "windSpeed").isSome = true ∧
    (kvs.lookup "windDirection").isSome = true ∧
    (kvs.lookup "detailedForecast").isSome = true

/-- A truthy forecast response shape on which the `get_forecast`
formatting loop cannot raise. -/
def goodForecast (fj : Json) : Prop :=
  ∃ kvs pkvs periods, fj = .obj kvs ∧ kvs.lookup "properties" = some (.obj pkvs) ∧
    pkvs.lookup "periods" = some (.arr periods) ∧ ∀ p ∈ periods.take 5, goodPeriod p

/-- A truthy points response shape on which `get_forecast` cannot raise,
relative to the environment: the forecast URL it carries must itself
answer with a well-shaped payload whenever that payload is truthy. -/
def goodPoints (env : WeatherEnv) (j : Json) : Prop :=
  ∃ kvs pkvs furl, j = .obj kvs ∧ kvs.lookup "properties" = some (.obj pkvs) ∧
    pkvs.lookup "forecast" = some (.str furl) ∧
    ∀ fj, make_nws_request env furl = some fj → fj.truthy = true → goodForecast fj

/-- A truthy geocoding response shape on which `geocode_location` cannot
raise, relative to the float capability of the environment. -/
def goodGeo (env : WeatherEnv) (j : Json) : Prop :=
  ∃ r rest rkvs latv lonv lats lons, j = .arr (r :: rest) ∧ r = .obj rkvs ∧
    rkvs.lookup "lat" = some latv ∧ rkvs.lookup "lon" = some lonv ∧
    env.pyfloat latv = .ok lats ∧ env.pyfloat lonv = .ok lons

example : pyStrip "  kord \t" = "kord" := by decide
example : pyUpper "kord" = "KORD" := by decide
example : pyIsAlpha "KORD" = true := by decide
example : pyIsAlpha "K0R1" = false := by decide
example : Json.strContainsSub "xfeaturesx" "features" = true := by decide
example : Json.strContainsSub "hello" "features" = false := by decide
example : pySplitFirst "a.pdf?token=abc" '?' = "a.pdf" := by decide
/- ## Shared helper lemmas -/

lemma ofNat_sub32_isUpper (n : Nat) (h1 : 97 ≤ n) (h2 : n ≤ 122) :
    (Char.ofNat (n - 32)).isUpper = true := by
  interval_cases n <;> decide

lemma pyCharUpper_isUpper_of_isAlpha (c : Char) (h : (pyCharUpper c).isAlpha = true) :
    (pyCharUpper c).isUpper = true := by
  unfold pyCharUpper at h ⊢
  by_cases hc : c.isLower
  · simp only [hc, if_true] at h ⊢
    have hb : 97 ≤ c.toNat ∧ c.toNat ≤ 122 := by
      simpa [Char.isLower] using hc
    exact ofNat_sub32_isUpper _ hb.1 hb.2
  · simp only [hc, if_false] at h ⊢
    simp only [Char.isAlpha, Bool.or_eq_true] at h
    rcases h with h | h
    · exact h
    · exact absurd h hc

lemma mem_pyStrip {c : Char} {s : String} (h : c ∈ (pyStrip s).data) : c ∈ s.data := by
  unfold pyStrip at h
  rw [show (String.mk (((s.data.dropWhile pyWhitespace).reverse.dropWhile pyWhitespace).reverse)).data
        = ((s.data.dropWhile pyWhitespace).reverse.dropWhile pyWhitespace).reverse from rfl,
      List.mem_reverse] at h
  have h2 := (List.dropWhile_sublist _).subset h
  rw [List.mem_reverse] at h2
  exact (List.dropWhile_sublist _).subset h2

lemma mem_pyUpper {c : Char} {s : String} (h : c ∈ (pyUpper s).data) :
    ∃ c0 ∈ s.data, c = pyCharUpper c0 := by
  unfold pyUpper at h
  rw [show (String.mk (s.data.map pyCharUpper)).data = s.data.map pyCharUpper from rfl] at h
  obtain ⟨c0, hc0, hmap⟩ := List.mem_map.mp h
  exact ⟨c0, hc0, hmap.symm⟩

lemma ne_of_head_char {a b : String} (h : a.data.head? ≠ b.data.head?) : a ≠ b :=
  fun he => h (by rw [he])

lemma head?_append_left {a : String} (b : String) {c : Char}
    (h : a.data.head? = some c) : (a ++ b).data.head? = some c := by
  rw [String.data_append, List.head?_append, h]
  rfl

lemma pyStrip_of_data_empty {s : String} (h : s.data.isEmpty = true) :
    (pyStrip s).data.isEmpty = true := by
  unfold pyStrip
  rw [List.isEmpty_iff] at h
  rw [show (String.mk (((s.data.dropWhile pyWhitespace).reverse.dropWhile pyWhitespace).reverse)).data
        = ((s.data.dropWhile pyWhitespace).reverse.dropWhile pyWhitespace).reverse from rfl]
  rw [h]
  rfl

lemma data_isEmpty_false_of_pyStrip {s : String} (h : (pyStrip s).data.isEmpty = false) :
    s.data.isEmpty = false := by
  by_contra hc
  rw [Bool.not_eq_false] at hc
  rw [pyStrip_of_data_empty hc] at h
  cases h

/- ## Aviation handler lemmas -/

lemma get_aviation_weather_invalid (env : WeatherEnv) (input : String)
    (h : ¬ ((pyStrip (pyUpper input)).data.length = 4 ∧
            pyIsAlpha (pyStrip (pyUpper input)) = true)) :
    get_aviation_weather env input = (invalidIcaoMsg, []) := by
  unfold get_aviation_weather
  rw [if_pos (not_and_or.mp h)]

lemma get_aviation_weather_snd (env : WeatherEnv) (input : String)
    (h4 : (pyStrip (pyUpper input)).data.length = 4)
    (ha : pyIsAlpha (pyStrip (pyUpper input)) = true) :
    (get_aviation_weather env input).2 =
      [metarUrl (pyStrip (pyUpper input)), tafUrl (pyStrip (pyUpper input))] := by
  unfold get_aviation_weather
  rw [if_neg (by simp [h4, ha])]
  dsimp only
  split <;> rfl

lemma get_aviation_weather_valid_eq (env : WeatherEnv) (input : String)
    (h4 : (pyStrip (pyUpper input)).data.length = 4)
    (ha : pyIsAlpha (pyStrip (pyUpper input)) = true) :
    get_aviation_weather env input =
      (if optStrFalsy (make_aviation_request env (metarUrl (pyStrip (pyUpper input)))) ∧
          optStrFalsy (make_aviation_request env (tafUrl (pyStrip (pyUpper input)))) then
        (unableAviationMsg (pyStrip (pyUpper input)),
         [metarUrl (pyStrip (pyUpper input)), tafUrl (pyStrip (pyUpper input))])
      else
        (pyJoin "\n"
          (metarParts (pyStrip (pyUpper input))
              (make_aviation_request env (metarUrl (pyStrip (pyUpper input)))) ++
            tafParts (pyStrip (pyUpper input))
              (make_aviation_request env (tafUrl (pyStrip (pyUpper input))))),
         [metarUrl (pyStrip (pyUpper input)), tafUrl (pyStrip (pyUpper input))])) := by
  unfold get_aviation_weather
  rw [if_neg (by simp [h4, ha])]

lemma metarParts_head (code : String) (m : Option String) :
    ∃ x rest, metarParts code m = ("METAR for " ++ code ++ x) :: rest := by
  cases m with
  | none => exact ⟨": No current METAR data available", [], rfl⟩
  | some s =>
    by_cases hc : ¬ s.data.isEmpty = true ∧ ¬ (pyStrip s).data.isEmpty = true
    · refine ⟨":", [pyStrip s], ?_⟩
      unfold metarParts
      dsimp only
      rw [if_pos hc]
    · refine ⟨": No current METAR data available", [], ?_⟩
      unfold metarParts
      dsimp only
      rw [if_neg hc]

lemma unable_ne_pyJoin (code x : String) (rest : List String) :
    unableAviationMsg code ≠ pyJoin "\n" (("METAR for " ++ code ++ x) :: rest) := by
  apply ne_of_head_char
  have hl : (unableAviationMsg code).data.head? = some 'U' := by
    unfold unableAviationMsg
    exact head?_append_left _ (head?_append_left _ rfl)
  have hr : (pyJoin "\n" (("METAR for " ++ code ++ x) :: rest)).data.head? = some 'M' := by
    cases rest with
    | nil =>
      show (("METAR for " ++ code ++ x)).data.head? = some 'M'
      exact head?_append_left _ (head?_append_left _ rfl)
    | cons r rs =>
      show (("METAR for " ++ code ++ x) ++ "\n" ++ pyJoin "\n" (r :: rs)).data.head? = some 'M'
      exact head?_append_left _ (head?_append_left _ (head?_append_left _ (head?_append_left _ rfl)))
  rw [hl, hr]
  simp

lemma unable_ne_joined (code : String) (m t : Option String) :
    unableAviationMsg code ≠ pyJoin "\n" (metarParts code m ++ tafParts code t) := by
  obtain ⟨x, rest, hx⟩ := metarParts_head code m
  rw [hx, List.cons_append]
  exact unable_ne_pyJoin code x (rest ++ tafParts code t)
/- ## C2 -/

/-- C2 as frozen is refuted: with both feeds returning a successful but
empty body, neither fetch returns an absent result, yet the handler
returns the single combined unable-to-fetch message.  The code decides
the override with Python falsiness (`not metar_data and not taf_data`),
which conflates an absent result with present empty text. -/
theorem C2_counterexample :
    make_aviation_request envEmptyAviation (metarUrl "KORD") = some "" ∧
    make_aviation_request envEmptyAviation (tafUrl "KORD") = some "" ∧
    (get_aviation_weather envEmptyAviation "KORD").1 = unableAviationMsg "KORD" :=
  ⟨rfl, rfl, rfl⟩

/-- C2 amended: for every valid 4-letter ICAO code, `get_aviation_weather`
returns the single combined unable-to-fetch message if and only if both
the METAR and the TAF fetch results are Python-falsy (absent, or present
with empty text); if exactly one feed has non-blank text, the result is
the per-feed block containing that feed stripped text and a per-feed
no-data line for the other feed, not the combined failure message. -/
theorem C2_aviation_combined_failure (env : WeatherEnv) (input : String)
    (h4 : (pyStrip (pyUpper input)).data.length = 4)
    (ha : pyIsAlpha (pyStrip (pyUpper input)) = true) :
    ∀ code, code = pyStrip (pyUpper input) →
    ∀ m, m = make_aviation_request env (metarUrl code) →
    ∀ t, t = make_aviation_request env (tafUrl code) →
      ((get_aviation_weather env input).1 = unableAviationMsg code ↔
        (optStrFalsy m = true ∧ optStrFalsy t = true)) ∧
      (∀ mt, m = some mt → (pyStrip mt).data.isEmpty = false →
        (∀ tt, t = some tt → (pyStrip tt).data.isEmpty = true) →
        (get_aviation_weather env input).1 =
          pyJoin "\n" ["METAR for " ++ code ++ ":", pyStrip mt,
            "\nTAF for " ++ code ++ ": No current TAF data available"]) ∧
      (∀ tt, t = some tt → (pyStrip tt).data.isEmpty = false →
        (∀ mt, m = some mt → (pyStrip mt).data.isEmpty = true) →
        (get_aviation_weather env input).1 =
          pyJoin "\n" ["METAR for " ++ code ++ ": No current METAR data available",
            "\nTAF for " ++ code ++ ":", pyStrip tt]) := by
  intro code hcode m hm t ht
  have heq := get_aviation_weather_valid_eq env input h4 ha
  rw [← hcode] at heq
  rw [heq, ← hm, ← ht]
  refine ⟨?_, ?_, ?_⟩
  · by_cases hcond : optStrFalsy m = true ∧ optStrFalsy t = true
    · rw [if_pos hcond]
      dsimp only
      simp [hcond]
    · rw [if_neg hcond]
      dsimp only
      constructor
      · intro hres
        exact absurd hres.symm (unable_ne_joined code m t)
      · intro hc
        exact absurd hc hcond
  · intro mt hmt hstrip htall
    subst hmt
    have hmtne : mt.data.isEmpty = false := data_isEmpty_false_of_pyStrip hstrip
    rw [if_neg (by simp [optStrFalsy, hmtne])]
    dsimp only
    have hmp : metarParts code (some mt) = ["METAR for " ++ code ++ ":", pyStrip mt] := by
      unfold metarParts
      dsimp only
      rw [if_pos ⟨by simp [hmtne], by simp [hstrip]⟩]
    have htp : tafParts code t = ["\nTAF for " ++ code ++ ": No current TAF data available"] := by
      cases t with
      | none => rfl
      | some tt =>
        have := htall tt rfl
        unfold tafParts
        dsimp only
        rw [if_neg (by simp [this])]
    rw [hmp, htp]
    rfl
  · intro tt htt hstrip hmall
    subst htt
    have httne : tt.data.isEmpty = false := data_isEmpty_false_of_pyStrip hstrip
    rw [if_neg (by simp [optStrFalsy, httne])]
    dsimp only
    have htp : tafParts code (some tt) = ["\nTAF for " ++ code ++ ":", pyStrip tt] := by
      unfold tafParts
      dsimp only
      rw [if_pos ⟨by simp [httne], by simp [hstrip]⟩]
    have hmp : metarParts code m = ["METAR for " ++ code ++ ": No current METAR data available"] := by
      cases m with
      | none => rfl
      | some mt =>
        have := hmall mt rfl
        unfold metarParts
        dsimp only
        rw [if_neg (by simp [this])]
    rw [hmp, htp]
    rfl

/-- Witness for the amended C2: at a concrete environment with a METAR
result and a failing TAF fetch, the handler returns the per-feed block and
not the combined message, and at a concrete environment where both fetches
fail it returns exactly the combined message. -/
theorem C2_aviation_combined_failure_witness :
    (get_aviation_weather envMetarOnly "KORD").1 =
      "METAR for KORD:\nMETAR KORD 121651Z 18010KT\n\nTAF for KORD: No current TAF data available" ∧
    (get_aviation_weather envNone "KORD").1 = unableAviationMsg "KORD" := by
  constructor
  · have h := (C2_aviation_combined_failure envMetarOnly "KORD" (by decide) (by decide)
      "KORD" rfl (some " METAR KORD 121651Z 18010KT ") rfl none rfl).2.1
      " METAR KORD 121651Z 18010KT " rfl (by decide) (by intro tt h; cases h)
    exact h
  · exact ((C2_aviation_combined_failure envNone "KORD" (by decide) (by decide)
      "KORD" rfl none rfl none rfl).1).mpr ⟨rfl, rfl⟩
/- ## C3 -/

/-- C3 as frozen is refuted: the input consisting of "kord" surrounded by
whitespace is not 4 alphabetic characters after case-normalization alone
(its uppercased form has length 7), so the claim requires rejection with
the fixed invalid-code message and no outbound call; the handler instead
also strips whitespace, accepts the input as KORD, issues both outbound
requests, and (with every fetch failing) returns the combined
unable-to-fetch message. -/
theorem C3_counterexample :
    get_aviation_weather envNone "  kord " =
      (unableAviationMsg "KORD", [metarUrl "KORD", tafUrl "KORD"]) ∧
    (pyUpper "  kord ").data.length ≠ 4 := by
  constructor
  · rfl
  · decide

/-- C3 amended: `get_aviation_weather` rejects the input with the fixed
invalid-code message and without issuing any outbound call unless the
input is exactly 4 alphabetic characters after case-normalization to
upper FOLLOWED BY stripping surrounding whitespace; in particular ORD and
K0R1 are rejected and kord is normalized to KORD in the outbound request
URLs. -/
theorem C3_icao_validation (env : WeatherEnv) (input : String) :
    (¬ ((pyStrip (pyUpper input)).data.length = 4 ∧
        pyIsAlpha (pyStrip (pyUpper input)) = true) →
      get_aviation_weather env input = (invalidIcaoMsg, [])) ∧
    (((pyStrip (pyUpper input)).data.length = 4 ∧
        pyIsAlpha (pyStrip (pyUpper input)) = true) →
      (get_aviation_weather env input).2 =
        [metarUrl (pyStrip (pyUpper input)), tafUrl (pyStrip (pyUpper input))]) :=
  ⟨get_aviation_weather_invalid env input,
   fun hv => get_aviation_weather_snd env input hv.1 hv.2⟩

/-- Witness for the amended C3 at the concrete inputs named by the claim:
ORD (3 letters) and K0R1 (non-alphabetic) are rejected with no outbound
call, kord is accepted and normalized to KORD inside both request URLs. -/
theorem C3_icao_validation_witness :
    get_aviation_weather envNone "ORD" = (invalidIcaoMsg, []) ∧
    get_aviation_weather envNone "K0R1" = (invalidIcaoMsg, []) ∧
    (get_aviation_weather envNone "kord").2 = [metarUrl "KORD", tafUrl "KORD"] :=
  ⟨(C3_icao_validation envNone "ORD").1 (by decide),
   (C3_icao_validation envNone "K0R1").1 (by decide),
   (C3_icao_validation envNone "kord").2 (by decide)⟩

/- ## C10 -/

/-- C10: `get_aviation_weather` trims surrounding whitespace in addition
to uppercasing: for every input, acceptance (equivalently, the issuing of
the two outbound requests) is decided on the uppercased-and-stripped form
of the input, and whenever an outbound request is issued the ICAO code
embedded in both the METAR and TAF request URLs is that form, exactly 4
characters which are all uppercase alphabetic. -/
theorem C10_aviation_normalized_code (env : WeatherEnv) (input : String) :
    ((get_aviation_weather env input).2 ≠ [] ↔
      ((pyStrip (pyUpper input)).data.length = 4 ∧
       pyIsAlpha (pyStrip (pyUpper input)) = true)) ∧
    ((get_aviation_weather env input).2 ≠ [] →
      (get_aviation_weather env input).2 =
        [metarUrl (pyStrip (pyUpper input)), tafUrl (pyStrip (pyUpper input))] ∧
      (pyStrip (pyUpper input)).data.length = 4 ∧
      ∀ c ∈ (pyStrip (pyUpper input)).data, c.isUpper = true ∧ c.isAlpha = true) := by
  by_cases hv : (pyStrip (pyUpper input)).data.length = 4 ∧
      pyIsAlpha (pyStrip (pyUpper input)) = true
  · have hsnd := get_aviation_weather_snd env input hv.1 hv.2
    constructor
    · constructor
      · intro _
        exact hv
      · intro _
        rw [hsnd]
        simp
    · intro _
      refine ⟨hsnd, hv.1, ?_⟩
      intro c hc
      have halpha : c.isAlpha = true := by
        have h2 := hv.2
        unfold pyIsAlpha at h2
        simp only [Bool.and_eq_true, List.all_eq_true] at h2
        exact h2.2 c hc
      obtain ⟨c0, _, rfl⟩ := mem_pyUpper (mem_pyStrip hc)
      exact ⟨pyCharUpper_isUpper_of_isAlpha c0 halpha, halpha⟩
  · have hinv := get_aviation_weather_invalid env input hv
    rw [hinv]
    constructor
    · simp only [ne_eq, not_true_eq_false]
      constructor
      · intro h
        exact h.elim
      · intro h
        exact absurd h hv
    · intro h
      exact absurd rfl h

/-- Witness for C10 at a concrete input with whitespace and lowercase:
the input gets accepted as KORD and the embedded code is uppercase. -/
theorem C10_aviation_normalized_code_witness :
    (get_aviation_weather envNone "  kord ").2 = [metarUrl "KORD", tafUrl "KORD"] ∧
    ∀ c ∈ ("KORD" : String).data, c.isUpper = true ∧ c.isAlpha = true :=
  ⟨((C10_aviation_normalized_code envNone "  kord ").2 (by decide)).1,
   fun c hc => ((C10_aviation_normalized_code envNone "  kord ").2 (by decide)).2.2 c hc⟩
/- ## Except-monad helper lemmas -/

lemma mapM_ok_length {α β : Type} (f : α → Except PyErr β) (l : List α) :
    ∀ bs, l.mapM f = .ok bs → bs.length = l.length := by
  induction l with
  | nil =>
    intro bs h
    simp only [List.mapM_nil] at h
    have h2 : Except.ok ([] : List β) = Except.ok bs := h
    cases h2
    rfl
  | cons a as ih =>
    intro bs h
    rw [List.mapM_cons] at h
    cases hfa : f a with
    | error e =>
      rw [hfa] at h
      exact Except.noConfusion h
    | ok b =>
      rw [hfa] at h
      cases hm : as.mapM f with
      | error e =>
        rw [hm] at h
        exact Except.noConfusion h
      | ok bs2 =>
        rw [hm] at h
        have h2 : Except.ok (b :: bs2) = Except.ok bs := h
        cases h2
        simp [ih bs2 hm]

lemma mapM_ok_exists {α β : Type} (f : α → Except PyErr β) (l : List α)
    (h : ∀ a ∈ l, ∃ b, f a = .ok b) : ∃ bs, l.mapM f = .ok bs := by
  induction l with
  | nil => exact ⟨[], by simp only [List.mapM_nil]; rfl⟩
  | cons a as ih =>
    obtain ⟨b, hb⟩ := h a (by simp)
    obtain ⟨bs, hbs⟩ := ih (fun x hx => h x (by simp [hx]))
    refine ⟨b :: bs, ?_⟩
    rw [List.mapM_cons, hb, hbs]
    rfl

lemma bind_ok_py {α β : Type} (a : α) (f : α → Except PyErr β) :
    (Except.ok a : Except PyErr α) >>= f = f a := rfl

/- ## C4 -/

/-- C4: for every successful points response and every successful forecast
response whose periods list parses to a list of periods, `get_forecast`
formats exactly the first 5 periods in their original list order (each
rendered by `format_period` with name, temperature plus unit, wind speed
and direction, and detailed text) joined by the separator line; when the
list has at most 5 entries it formats all of them, as expressed by the
length equation `blocks.length = min 5 periods.length`. -/
lemma get_forecast_formats (env : WeatherEnv) (latitude longitude : String)
    (pd props : Json) (furl : String) (fd fprops : Json)
    (periods : List Json) (blocks : List String)
    (h1 : make_nws_request env (pointsUrl latitude longitude) = some pd)
    (h2 : pd.truthy = true)
    (h3 : pd.index "properties" = .ok props)
    (h4 : props.index "forecast" = .ok (.str furl))
    (h5 : make_nws_request env furl = some fd)
    (h6 : fd.truthy = true)
    (h7 : fd.index "properties" = .ok fprops)
    (h8 : fprops.index "periods" = .ok (.arr periods))
    (h9 : (periods.take 5).mapM format_period = .ok blocks) :
    get_forecast env latitude longitude = .ok (pyJoin "\n---\n" blocks) := by
  unfold get_forecast
  rw [h1]
  dsimp only
  rw [if_neg (by simp [h2])]
  rw [h3, bind_ok_py, h4, bind_ok_py]
  dsimp only
  rw [h5]
  dsimp only
  rw [if_neg (by simp [h6])]
  rw [h7, bind_ok_py, h8, bind_ok_py]
  simp only [Json.slice5, Json.toIter, bind_ok_py]
  rw [h9, bind_ok_py]
  rfl

theorem C4_forecast_first_five (env : WeatherEnv) (latitude longitude : String)
    (pd props : Json) (furl : String) (fd fprops : Json)
    (periods : List Json) (blocks : List String)
    (h1 : make_nws_request env (pointsUrl latitude longitude) = some pd)
    (h2 : pd.truthy = true)
    (h3 : pd.index "properties" = .ok props)
    (h4 : props.index "forecast" = .ok (.str furl))
    (h5 : make_nws_request env furl = some fd)
    (h6 : fd.truthy = true)
    (h7 : fd.index "properties" = .ok fprops)
    (h8 : fprops.index "periods" = .ok (.arr periods))
    (h9 : (periods.take 5).mapM format_period = .ok blocks) :
    get_forecast env latitude longitude = .ok (pyJoin "\n---\n" blocks) ∧
    blocks.length = min 5 periods.length := by
  constructor
  · exact get_forecast_formats env latitude longitude pd props furl fd fprops periods blocks
      h1 h2 h3 h4 h5 h6 h7 h8 h9
  · rw [mapM_ok_length format_period (periods.take 5) blocks h9, List.length_take]
/-- Witness for C4 at a seven-period forecast: exactly the first five
periods are formatted, in order. -/
theorem C4_forecast_first_five_witness :
    get_forecast envForecast7 "39.0" "-104.0" =
      .ok (pyJoin "\n---\n"
        ["\n            P1:\n            Temperature: 70Â°F\n            Wind: 5 mph N\n            Forecast: Sunny\n            ",
         "\n            P2:\n            Temperature: 70Â°F\n            Wind: 5 mph N\n            Forecast: Sunny\n            ",
         "\n            P3:\n            Temperature: 70Â°F\n            Wind: 5 mph N\n            Forecast: Sunny\n            ",
         "\n            P4:\n            Temperature: 70Â°F\n            Wind: 5 mph N\n            Forecast: Sunny\n            ",
         "\n            P5:\n            Temperature: 70Â°F\n            Wind: 5 mph N\n            Forecast: Sunny\n            "]) ∧
    (5 : Nat) = min 5 7 :=
  C4_forecast_first_five envForecast7 "39.0" "-104.0" pointsResp
    (Json.obj [("forecast", Json.str "https://api.weather.gov/gridpoints/X/1,2/forecast")])
    "https://api.weather.gov/gridpoints/X/1,2/forecast" forecastResp7
    (Json.obj [("periods", Json.arr
      [periodJson "P1", periodJson "P2", periodJson "P3", periodJson "P4",
       periodJson "P5", periodJson "P6", periodJson "P7"])])
    [periodJson "P1", periodJson "P2", periodJson "P3", periodJson "P4",
     periodJson "P5", periodJson "P6", periodJson "P7"]
    ["\n            P1:\n            Temperature: 70Â°F\n            Wind: 5 mph N\n            Forecast: Sunny\n            ",
     "\n            P2:\n            Temperature: 70Â°F\n            Wind: 5 mph N\n            Forecast: Sunny\n            ",
     "\n            P3:\n            Temperature: 70Â°F\n            Wind: 5 mph N\n            Forecast: Sunny\n            ",
     "\n            P4:\n            Temperature: 70Â°F\n            Wind: 5 mph N\n            Forecast: Sunny\n            ",
     "\n            P5:\n            Temperature: 70Â°F\n            Wind: 5 mph N\n            Forecast: Sunny\n            "]
    rfl rfl rfl rfl rfl rfl rfl rfl rfl

/- ## C5 -/

/-- C5 as frozen is refuted: a response that parses to the bare JSON
number 5 is truthy and lacks a features key, so the claim requires the
fixed unable-to-fetch string, but the membership test `"features" in data`
raises a TypeError on a non-iterable value, which propagates. -/
theorem C5_counterexample :
    get_alerts envAlertsNum "CA" =
      .error ⟨"TypeError", "argument of type \x27int\x27 is not iterable"⟩ := rfl

/-- C5 amended: if the alerts fetch fails, or the response is falsy, or
the response is a dict without a features key, get_alerts returns the
fixed unable-to-fetch string (a truthy non-dict response can instead
raise); if the features key holds an empty list it returns exactly the
fixed no-active-alerts string; and when the features key holds a nonempty
list whose members all format (a member without a properties dict instead
raises a KeyError), the result is the formatted features joined by the
separator line. -/
theorem C5_alerts_formatting (env : WeatherEnv) (state : String) :
    (make_nws_request env (alertsUrl state) = none →
      get_alerts env state = .ok unableAlertsMsg) ∧
    (∀ j, make_nws_request env (alertsUrl state) = some j → j.truthy = false →
      get_alerts env state = .ok unableAlertsMsg) ∧
    (∀ kvs, make_nws_request env (alertsUrl state) = some (.obj kvs) →
      kvs.lookup "features" = none →
      get_alerts env state = .ok unableAlertsMsg) ∧
    (∀ kvs, make_nws_request env (alertsUrl state) = some (.obj kvs) →
      kvs.lookup "features" = some (.arr []) →
      get_alerts env state = .ok noActiveAlertsMsg) ∧
    (∀ kvs feats blocks, make_nws_request env (alertsUrl state) = some (.obj kvs) →
      kvs.lookup "features" = some (.arr feats) → feats ≠ [] →
      feats.mapM format_alert = .ok blocks →
      get_alerts env state = .ok (pyJoin "\n---\n" blocks)) := by
  refine ⟨?_, ?_, ?_, ?_, ?_⟩
  · intro h
    unfold get_alerts
    rw [h]
  · intro j hj ht
    unfold get_alerts
    rw [hj]
    dsimp only
    rw [if_pos (by simp [ht])]
  · intro kvs hk hf
    unfold get_alerts
    rw [hk]
    dsimp only
    by_cases he : kvs.isEmpty
    · rw [if_pos (by simp [Json.truthy, he])]
    · rw [if_neg (by simp [Json.truthy, he])]
      show (Json.obj kvs).hasMember "features" >>= _ = _
      simp only [Json.hasMember, hf, Option.isSome_none, bind_ok_py]
      rw [if_pos (by simp)]
      rfl
  · intro kvs hk hf
    unfold get_alerts
    rw [hk]
    dsimp only
    have hne : kvs.isEmpty = false := by
      cases kvs with
      | nil => cases hf
      | cons x xs => rfl
    rw [if_neg (by simp [Json.truthy, hne])]
    show (Json.obj kvs).hasMember "features" >>= _ = _
    simp only [Json.hasMember, hf, Option.isSome_some, bind_ok_py]
    rw [if_neg (by simp)]
    show (Json.obj kvs).index "features" >>= _ = _
    simp only [Json.index, hf, bind_ok_py]
    rw [if_pos (by simp [Json.truthy])]
    rfl
  · intro kvs feats blocks hk hf hne hblocks
    unfold get_alerts
    rw [hk]
    dsimp only
    have hkne : kvs.isEmpty = false := by
      cases kvs with
      | nil => cases hf
      | cons x xs => rfl
    rw [if_neg (by simp [Json.truthy, hkne])]
    show (Json.obj kvs).hasMember "features" >>= _ = _
    simp only [Json.hasMember, hf, Option.isSome_some, bind_ok_py]
    rw [if_neg (by simp)]
    show (Json.obj kvs).index "features" >>= _ = _
    simp only [Json.index, hf, bind_ok_py]
    rw [if_neg (by simp [Json.truthy, hne])]
    show (Json.arr feats).toIter >>= _ = _
    simp only [Json.toIter, bind_ok_py]
    rw [hblocks, bind_ok_py]
    rfl

/-- Witness for the amended C5: the empty features list yields exactly the
no-active-alerts string for state ZZ, a failing fetch yields the fixed
unable-to-fetch string, and a single well-formed feature is formatted with
placeholder defaults for its absent fields. -/
theorem C5_alerts_formatting_witness :
    get_alerts envAlertsEmpty "ZZ" = .ok "No active alerts for this state." ∧
    get_alerts envNone "ZZ" = .ok unableAlertsMsg ∧
    get_alerts envAlertsOne "CA" = .ok ("\n        Event: Flood Warning\n        Area: Unknown\n        Severity: Severe\n        Description: No description available\n        Instructions: No specific instructions provided\n        ") :=
  ⟨(C5_alerts_formatting envAlertsEmpty "ZZ").2.2.2.1 [("features", Json.arr [])] rfl rfl,
   (C5_alerts_formatting envNone "ZZ").1 rfl,
   (C5_alerts_formatting envAlertsOne "CA").2.2.2.2 [("features", Json.arr [alertFeature])]
     [alertFeature]
     ["\n        Event: Flood Warning\n        Area: Unknown\n        Severity: Severe\n        Description: No description available\n        Instructions: No specific instructions provided\n        "]
     rfl rfl (by simp) rfl⟩

/- ## C6 -/

/-- C6: for every input string whose stripped form is empty (equivalently,
the input is empty or whitespace-only), geocode_location returns the fixed
message and issues no outbound call; for non-blank input the trimmed
location is URL-encoded with urllib.parse.quote and embedded in the single
geocoding query URL. -/
theorem C6_geocode_blank_and_encoding (env : WeatherEnv) (location : String) :
    ((pyStrip location).data.isEmpty = true →
      geocode_location env location = (.ok invalidLocationMsg, [])) ∧
    ((pyStrip location).data.isEmpty = false →
      (geocode_location env location).2 =
        [geoSearchUrl (pyQuote (pyStrip location))]) := by
  constructor
  · intro h
    unfold geocode_location
    rw [if_pos (by simp [h])]
  · intro h
    have hloc : location.data.isEmpty = false := data_isEmpty_false_of_pyStrip h
    unfold geocode_location
    rw [if_neg (by simp [h, hloc])]
    dsimp only
    cases make_geocoding_request env (geoSearchUrl (pyQuote (pyStrip location))) <;> rfl

/-- Witness for C6: whitespace-only input is rejected with no outbound
call, and a concrete location is trimmed and percent-encoded inside the
issued query URL. -/
theorem C6_geocode_blank_and_encoding_witness :
    geocode_location envNone "   " = (.ok invalidLocationMsg, []) ∧
    (geocode_location envNone " New York, NY ").2 =
      [geoSearchUrl "New%20York%2C%20NY"] :=
  ⟨(C6_geocode_blank_and_encoding envNone "   ").1 rfl,
   (C6_geocode_blank_and_encoding envNone " New York, NY ").2 rfl⟩
/- ## C1 -/

lemma format_alert_ok_of_good {f : Json} (h : goodFeature f) :
    ∃ s, format_alert f = .ok s := by
  obtain ⟨fkvs, pkvs, rfl, hp⟩ := h
  cases hres : format_alert (Json.obj fkvs) with
  | ok s => exact ⟨s, rfl⟩
  | error e =>
    unfold format_alert at hres
    simp only [Json.index, hp, bind_ok_py, Json.dictGet] at hres
    exact Except.noConfusion hres

lemma format_period_ok_of_good {p : Json} (h : goodPeriod p) :
    ∃ s, format_period p = .ok s := by
  obtain ⟨kvs, rfl, h1, h2, h3, h4, h5, h6⟩ := h
  rw [Option.isSome_iff_exists] at h1 h2 h3 h4 h5 h6
  obtain ⟨v1, hv1⟩ := h1
  obtain ⟨v2, hv2⟩ := h2
  obtain ⟨v3, hv3⟩ := h3
  obtain ⟨v4, hv4⟩ := h4
  obtain ⟨v5, hv5⟩ := h5
  obtain ⟨v6, hv6⟩ := h6
  cases hres : format_period (Json.obj kvs) with
  | ok s => exact ⟨s, rfl⟩
  | error e =>
    unfold format_period at hres
    simp only [Json.index, hv1, hv2, hv3, hv4, hv5, hv6, bind_ok_py] at hres
    exact Except.noConfusion hres

lemma get_alerts_ok_of_shape (env : WeatherEnv) (state : String)
    (hg : ∀ j, make_nws_request env (alertsUrl state) = some j → j.truthy = true →
      goodAlerts j) :
    ∃ s, get_alerts env state = .ok s := by
  cases hr : make_nws_request env (alertsUrl state) with
  | none => exact ⟨unableAlertsMsg, by unfold get_alerts; rw [hr]⟩
  | some j =>
    by_cases ht : j.truthy = true
    · obtain ⟨kvs, feats, rfl, hf, hfeats⟩ := hg j hr ht
      obtain ⟨blocks, hblocks⟩ := mapM_ok_exists format_alert feats
        (fun f hfmem => format_alert_ok_of_good (hfeats f hfmem))
      cases feats with
      | nil =>
        refine ⟨noActiveAlertsMsg, ?_⟩
        unfold get_alerts
        rw [hr]
        dsimp only
        rw [if_neg (by simp [ht])]
        show (Json.obj kvs).hasMember "features" >>= _ = _
        simp only [Json.hasMember, hf, Option.isSome_some, bind_ok_py]
        rw [if_neg (by simp)]
        show (Json.obj kvs).index "features" >>= _ = _
        simp only [Json.index, hf, bind_ok_py]
        rw [if_pos (by simp [Json.truthy])]
        rfl
      | cons f fs =>
        refine ⟨pyJoin "\n---\n" blocks, ?_⟩
        unfold get_alerts
        rw [hr]
        dsimp only
        rw [if_neg (by simp [ht])]
        show (Json.obj kvs).hasMember "features" >>= _ = _
        simp only [Json.hasMember, hf, Option.isSome_some, bind_ok_py]
        rw [if_neg (by simp)]
        show (Json.obj kvs).index "features" >>= _ = _
        simp only [Json.index, hf, bind_ok_py]
        rw [if_neg (by simp [Json.truthy])]
        show (Json.arr (f :: fs)).toIter >>= _ = _
        simp only [Json.toIter, bind_ok_py]
        rw [hblocks, bind_ok_py]
        rfl
    · refine ⟨unableAlertsMsg, ?_⟩
      unfold get_alerts
      rw [hr]
      dsimp only
      rw [if_pos ht]

lemma get_forecast_ok_of_shape (env : WeatherEnv) (latitude longitude : String)
    (hg : ∀ j, make_nws_request env (pointsUrl latitude longitude) = some j →
      j.truthy = true → goodPoints env j) :
    ∃ s, get_forecast env latitude longitude = .ok s := by
  cases hr : make_nws_request env (pointsUrl latitude longitude) with
  | none => exact ⟨unablePointsMsg, by unfold get_forecast; rw [hr]⟩
  | some pd =>
    by_cases ht : pd.truthy = true
    · obtain ⟨kvs, pkvs, furl, rfl, hprops, hfurl, hfrest⟩ := hg pd hr ht
      have h3 : (Json.obj kvs).index "properties" = .ok (.obj pkvs) := by
        simp only [Json.index, hprops]
      have h4 : (Json.obj pkvs).index "forecast" = .ok (.str furl) := by
        simp only [Json.index, hfurl]
      cases hf : make_nws_request env furl with
      | none =>
        refine ⟨unableForecastMsg, ?_⟩
        unfold get_forecast
        rw [hr]
        dsimp only
        rw [if_neg (by simp [ht])]
        rw [h3, bind_ok_py, h4, bind_ok_py]
        dsimp only
        rw [hf]
        rfl
      | some fd =>
        by_cases htf : fd.truthy = true
        · obtain ⟨fkvs, fpkvs, periods, rfl, hfp, hper, hgood⟩ := hfrest fd hf htf
          obtain ⟨blocks, hblocks⟩ := mapM_ok_exists format_period (periods.take 5)
            (fun p hp => format_period_ok_of_good (hgood p hp))
          refine ⟨pyJoin "\n---\n" blocks, ?_⟩
          exact get_forecast_formats env latitude longitude (.obj kvs) (.obj pkvs) furl
            (.obj fkvs) (.obj fpkvs) periods blocks hr ht h3 h4 hf htf
            (by simp only [Json.index, hfp]) (by simp only [Json.index, hper]) hblocks
        · refine ⟨unableForecastMsg, ?_⟩
          unfold get_forecast
          rw [hr]
          dsimp only
          rw [if_neg (by simp [ht])]
          rw [h3, bind_ok_py, h4, bind_ok_py]
          dsimp only
          rw [hf]
          dsimp only
          rw [if_pos htf]
          rfl
    · refine ⟨unablePointsMsg, ?_⟩
      unfold get_forecast
      rw [hr]
      dsimp only
      rw [if_pos ht]

lemma geocode_ok_of_shape (env : WeatherEnv) (location : String)
    (hg : ∀ j, make_geocoding_request env (geoSearchUrl (pyQuote (pyStrip location))) = some j →
      j.truthy = true → goodGeo env j) :
    ∃ s, (geocode_location env location).1 = .ok s := by
  by_cases hb : (location.data.isEmpty || (pyStrip location).data.isEmpty) = true
  · exact ⟨invalidLocationMsg, by unfold geocode_location; rw [if_pos hb]⟩
  · cases hr : make_geocoding_request env (geoSearchUrl (pyQuote (pyStrip location))) with
    | none =>
      refine ⟨unableFindMsg location, ?_⟩
      unfold geocode_location
      rw [if_neg hb]
      dsimp only
      rw [hr]
    | some j =>
      by_cases ht : j.truthy = true
      · obtain ⟨r, rest, rkvs, latv, lonv, lats, lons, rfl, rfl, hlat, hlon, hflat, hflon⟩ :=
          hg j hr ht
        cases hres : (geocode_location env location).1 with
        | ok s => exact ⟨s, rfl⟩
        | error e =>
          exfalso
          unfold geocode_location at hres
          rw [if_neg hb] at hres
          dsimp only at hres
          rw [hr] at hres
          dsimp only at hres
          rw [if_neg (by simp [Json.truthy])] at hres
          simp only [Json.pyLen, bind_ok_py] at hres
          rw [if_neg (by simp)] at hres
          simp only [Json.index0, bind_ok_py, Json.index, hlat, hflat, hlon, hflon,
            Json.dictGet] at hres
          exact Except.noConfusion hres
      · refine ⟨unableFindMsg location, ?_⟩
        unfold geocode_location
        rw [if_neg hb]
        dsimp only
        rw [hr]
        dsimp only
        rw [if_pos ht]

/-- C1 as frozen is refuted: a successful points response that parses as
JSON but lacks the properties key makes get_forecast raise a KeyError that
propagates past the handler boundary instead of returning a string. -/
theorem C1_counterexample :
    get_forecast envPointsNoProps "40.7" "-74.0" =
      .error ⟨"KeyError", "\x27properties\x27"⟩ := rfl

/-- C1 amended: read_pdf, read_docx and get_aviation_weather return a
string for every input and every environment; get_alerts, get_forecast and
geocode_location return a string provided every truthy parsed response has
the shape the handler expects (a features list of objects carrying a
properties dict; a properties object carrying a forecast URL string and a
periods list of fully keyed periods; a nonempty match list of objects with
float-parseable lat and lon) - when such a response lacks an expected key
the handler instead raises. -/
theorem C1_handler_string_contract :
    (∀ (denv : DocEnv) (p : String), ∃ s : String, read_pdf denv p = s) ∧
    (∀ (denv : DocEnv) (p : String), ∃ s : String, read_docx denv p = s) ∧
    (∀ (env : WeatherEnv) (icao : String), ∃ s : String, (get_aviation_weather env icao).1 = s) ∧
    (∀ (env : WeatherEnv) (state : String),
      (∀ j, make_nws_request env (alertsUrl state) = some j → j.truthy = true → goodAlerts j) →
      ∃ s, get_alerts env state = .ok s) ∧
    (∀ (env : WeatherEnv) (latitude longitude : String),
      (∀ j, make_nws_request env (pointsUrl latitude longitude) = some j → j.truthy = true →
        goodPoints env j) →
      ∃ s, get_forecast env latitude longitude = .ok s) ∧
    (∀ (env : WeatherEnv) (location : String),
      (∀ j, make_geocoding_request env (geoSearchUrl (pyQuote (pyStrip location))) = some j →
        j.truthy = true → goodGeo env j) →
      ∃ s, (geocode_location env location).1 = .ok s) :=
  ⟨fun denv p => ⟨read_pdf denv p, rfl⟩,
   fun denv p => ⟨read_docx denv p, rfl⟩,
   fun env icao => ⟨(get_aviation_weather env icao).1, rfl⟩,
   get_alerts_ok_of_shape,
   get_forecast_ok_of_shape,
   geocode_ok_of_shape⟩

/-- Witness for the amended C1 at concrete environments with well-shaped
responses: every handler produces a string result. -/
theorem C1_handler_string_contract_witness :
    (∃ s : String, read_pdf denvOk "/docs/a.pdf" = s) ∧
    (∃ s : String, read_docx denvOk "/docs/a.docx" = s) ∧
    (∃ s : String, (get_aviation_weather envNone "KORD").1 = s) ∧
    (∃ s, get_alerts envAlertsOne "CA" = .ok s) ∧
    (∃ s, get_forecast envForecast7 "39.0" "-104.0" = .ok s) ∧
    (∃ s, (geocode_location envGeoGood "Denver").1 = .ok s) := by
  refine ⟨C1_handler_string_contract.1 denvOk "/docs/a.pdf",
    C1_handler_string_contract.2.1 denvOk "/docs/a.docx",
    C1_handler_string_contract.2.2.1 envNone "KORD",
    C1_handler_string_contract.2.2.2.1 envAlertsOne "CA" ?_,
    C1_handler_string_contract.2.2.2.2.1 envForecast7 "39.0" "-104.0" ?_,
    C1_handler_string_contract.2.2.2.2.2 envGeoGood "Denver" ?_⟩
  · intro j hj ht
    have hj2 : some (Json.obj [("features", Json.arr [alertFeature])]) = some j := hj
    injection hj2 with hj3
    subst hj3
    refine ⟨[("features", Json.arr [alertFeature])], [alertFeature], rfl, rfl, ?_⟩
    intro f hfm
    simp only [List.mem_singleton] at hfm
    subst hfm
    exact ⟨[("properties", Json.obj [("event", Json.str "Flood Warning"),
      ("severity", Json.str "Severe")])],
      [("event", Json.str "Flood Warning"), ("severity", Json.str "Severe")], rfl, rfl⟩
  · intro j hj ht
    have hj2 : some pointsResp = some j := hj
    injection hj2 with hj3
    subst hj3
    refine ⟨[("properties", Json.obj [("forecast",
      Json.str "https://api.weather.gov/gridpoints/X/1,2/forecast")])],
      [("forecast", Json.str "https://api.weather.gov/gridpoints/X/1,2/forecast")],
      "https://api.weather.gov/gridpoints/X/1,2/forecast", rfl, rfl, rfl, ?_⟩
    intro fj hfj htf
    have hfj2 : some forecastResp7 = some fj := hfj
    injection hfj2 with hfj3
    subst hfj3
    refine ⟨_, _, [periodJson "P1", periodJson "P2", periodJson "P3", periodJson "P4",
      periodJson "P5", periodJson "P6", periodJson "P7"], rfl, rfl, rfl, ?_⟩
    intro p hp
    simp only [List.take, List.mem_cons, List.not_mem_nil, or_false] at hp
    rcases hp with rfl | rfl | rfl | rfl | rfl <;>
      exact ⟨_, rfl, rfl, rfl, rfl, rfl, rfl, rfl⟩
  · intro j hj ht
    have hj2 : some (Json.arr [Json.obj [("lat", Json.str "40.7"), ("lon", Json.str "-74.0"),
      ("display_name", Json.str "New York")]]) = some j := hj
    injection hj2 with hj3
    subst hj3
    exact ⟨_, [], _, Json.str "40.7", Json.str "-74.0", "40.7", "-74.0",
      rfl, rfl, rfl, rfl, rfl, rfl⟩
/- ## C7 -/

/-- C7: for every input path, every exception raised during resolution or
conversion is rendered as the fixed error string embedding the original
exception message (and nothing else is returned on that path): read_pdf
yields "Error reading PDF: " followed by str(e), read_docx analogously
with the DOCX label; no exception escapes and no structured error object
is returned, the handlers being plain string functions. -/
theorem C7_doc_error_strings (env : DocEnv) (p : String) :
    (∀ e, get_local_file env p = .error e →
      read_pdf env p = "Error reading PDF: " ++ e.msg ∧
      read_docx env p = "Error reading DOCX: " ++ e.msg) ∧
    (∀ lp e, get_local_file env p = .ok lp → env.convert lp = .error e →
      read_pdf env p = "Error reading PDF: " ++ e.msg ∧
      read_docx env p = "Error reading DOCX: " ++ e.msg) := by
  constructor
  · intro e he
    constructor
    · unfold read_pdf
      rw [he]
      rfl
    · unfold read_docx
      rw [he]
      rfl
  · intro lp e h1 h2
    constructor
    · unfold read_pdf
      rw [h1, bind_ok_py, h2]
      rfl
    · unfold read_docx
      rw [h1, bind_ok_py, h2]
      rfl

/-- Witness for C7: a raising conversion yields the labelled error strings
for both handlers, and a raising resolution (remote fetch failure) does
too. -/
theorem C7_doc_error_strings_witness :
    (read_pdf denvConvRaise "/docs/a.pdf" = "Error reading PDF: no such file" ∧
     read_docx denvConvRaise "/docs/a.pdf" = "Error reading DOCX: no such file") ∧
    (read_pdf denvHttpRaise "https://x.org/a.pdf" =
       "Error reading PDF: connection refused" ∧
     read_docx denvHttpRaise "https://x.org/a.pdf" =
       "Error reading DOCX: connection refused") :=
  ⟨(C7_doc_error_strings denvConvRaise "/docs/a.pdf").2 "/docs/a.pdf"
     ⟨"FileNotFoundError", "no such file"⟩ rfl rfl,
   (C7_doc_error_strings denvHttpRaise "https://x.org/a.pdf").1
     ⟨"ConnectionError", "connection refused"⟩ rfl⟩

/- ## C8 -/

/-- C8: for every input and every environment, read_pdf and read_docx
compute the same result - same resolution, same conversion, same success
output including the empty string when the conversion exposes no text -
and differ only in the label of the error-message prefix on the failure
path. -/
theorem C8_pdf_docx_equivalence (env : DocEnv) (p : String) :
    (read_pdf env p = read_docx env p ∨
      ∃ m, read_pdf env p = "Error reading PDF: " ++ m ∧
           read_docx env p = "Error reading DOCX: " ++ m) ∧
    (∀ lp, get_local_file env p = .ok lp → env.convert lp = .ok none →
      read_pdf env p = "" ∧ read_docx env p = "") := by
  constructor
  · cases h1 : get_local_file env p with
    | error e =>
      right
      refine ⟨e.msg, ?_, ?_⟩
      · unfold read_pdf
        rw [h1]
        rfl
      · unfold read_docx
        rw [h1]
        rfl
    | ok lp =>
      cases h2 : env.convert lp with
      | error e =>
        right
        refine ⟨e.msg, ?_, ?_⟩
        · unfold read_pdf
          rw [h1, bind_ok_py, h2]
          rfl
        · unfold read_docx
          rw [h1, bind_ok_py, h2]
          rfl
      | ok t =>
        left
        unfold read_pdf read_docx
        rw [h1, bind_ok_py, h2]
        cases t <;> rfl
  · intro lp h1 h2
    constructor
    · unfold read_pdf
      rw [h1, bind_ok_py, h2]
      rfl
    · unfold read_docx
      rw [h1, bind_ok_py, h2]
      rfl

/-- Witness for C8: with a conversion result exposing no text content,
both handlers return the empty string on the same input. -/
theorem C8_pdf_docx_equivalence_witness :
    read_pdf denvConvNone "/docs/a.pdf" = "" ∧
    read_docx denvConvNone "/docs/a.pdf" = "" :=
  (C8_pdf_docx_equivalence denvConvNone "/docs/a.pdf").2 "/docs/a.pdf" rfl rfl

/- ## C9 -/

/-- C9 as frozen is refuted: the URI https://example.com has an empty path
component, so the claim requires the temporary file to end in the default
placeholder extension .tmp; the code instead applies os.path.splitext to
the whole query-stripped URI text, whose last dot after the last slash
lies inside the host name, and the temporary file ends in .com. -/
theorem C9_counterexample :
    get_local_file denvOk "https://example.com" = .ok "/tmp/tmpw1zq7xv0.com" ∧
    pyEndsWith "/tmp/tmpw1zq7xv0.com" ".tmp" = false := ⟨rfl, rfl⟩

/-- C9 amended: for every remote (http:// or https://) input URI whose
fetch succeeds, the temporary file path is the host-chosen prefix plus an
extension obtained by applying the splitext rule (suffix from the last dot
after the last slash) to the URI with the query string stripped, with .tmp
as the default when that rule yields nothing; since the scheme separator
contains a slash, this coincides with the path-component rule whenever the
URI has a slash-delimited path (".pdf?token=abc" still yields ".pdf" and
an extension-less path still yields ".tmp"), but a URI with no path such
as https://example.com yields ".com".  For non-remote input the resolver
returns the path with a leading user shorthand expanded, and otherwise
unchanged. -/
theorem C9_resolver_extension (env : DocEnv) :
    (∀ uri resp, (pyStartsWith uri "http://" || pyStartsWith uri "https://") = true →
      env.httpGet uri = .ok resp → resp.statusError = none →
      get_local_file env uri = .ok (env.tempBase ++
        (if ¬ (splitextExt (pySplitFirst uri '?')).data.isEmpty
         then splitextExt (pySplitFirst uri '?') else ".tmp")) ∧
      pyEndsWith (env.tempBase ++
        (if ¬ (splitextExt (pySplitFirst uri '?')).data.isEmpty
         then splitextExt (pySplitFirst uri '?') else ".tmp"))
        (if ¬ (splitextExt (pySplitFirst uri '?')).data.isEmpty
         then splitextExt (pySplitFirst uri '?') else ".tmp") = true) ∧
    (∀ p, (pyStartsWith p "http://" || pyStartsWith p "https://") = false →
      get_local_file env p = .ok (expanduser env p) ∧
      (pyStartsWith p "~" = false → get_local_file env p = .ok p)) := by
  constructor
  · intro uri resp hrem hget hstatus
    constructor
    · unfold get_local_file
      rw [if_pos hrem, hget, bind_ok_py, hstatus]
    · unfold pyEndsWith
      rw [String.data_append, List.isSuffixOf_iff_suffix]
      exact List.suffix_append _ _
  · intro p hrem
    constructor
    · unfold get_local_file
      rw [if_neg (by simp [hrem])]
    · intro hnot
      unfold get_local_file
      rw [if_neg (by simp [hrem])]
      unfold expanduser
      rw [if_pos (by simp [hnot])]

/-- Witness for the amended C9 at the concrete URIs named by the claim:
a query-carrying pdf URI resolves to a temporary file ending in .pdf, an
extension-less path resolves to one ending in .tmp, a home-relative local
path is expanded, and an absolute local path is returned unchanged. -/
theorem C9_resolver_extension_witness :
    get_local_file denvOk "https://x.org/doc.pdf?token=abc" = .ok "/tmp/tmpw1zq7xv0.pdf" ∧
    get_local_file denvOk "https://x.org/download?id=7" = .ok "/tmp/tmpw1zq7xv0.tmp" ∧
    get_local_file denvOk "/docs/a.pdf" = .ok "/docs/a.pdf" ∧
    get_local_file denvOk "~/docs/a.pdf" = .ok "/home/user/docs/a.pdf" := by
  refine ⟨?_, ?_, ?_, ?_⟩
  · exact ((C9_resolver_extension denvOk).1 "https://x.org/doc.pdf?token=abc"
      ⟨none, "bytes"⟩ rfl rfl rfl).1
  · exact ((C9_resolver_extension denvOk).1 "https://x.org/download?id=7"
      ⟨none, "bytes"⟩ rfl rfl rfl).1
  · exact ((C9_resolver_extension denvOk).2 "/docs/a.pdf" rfl).2 rfl
  · exact ((C9_resolver_extension denvOk).2 "~/docs/a.pdf" rfl).1
